import Mathlib

/-!
Verification of the PointCloud_Visualizer repository.

The repository is a set of Python scripts that load `.las` LiDAR point
clouds and hand them to plotting backends.  This file gives a shallow
embedding of the pure data manipulation performed by those scripts:

* coordinates are embedded as rationals (`ℚ`);
* numpy arrays become Lean lists; `np.vstack((x,y,z)).transpose()`
  becomes `zip3`, `np.unique` becomes `npUnique`, boolean-mask fancy
  indexing becomes `maskSelect`, `np.linspace`/`np.meshgrid` become
  `linspace`/`meshgridX`/`meshgridY`, and the `np.min`/`np.max`
  reductions (which raise `ValueError` on a zero-size array) become
  `npMin`/`npMax` returning `Option`;
* external library calls (laspy file parsing, the sklearn `SVC` fit,
  the matplotlib colormap) are abstracted as function parameters: the
  embedding receives the parsed `LasFile`, an arbitrary `svmFit`
  producing an `SVMModel`, and an arbitrary `cmap`;
* the Python classes become explicit state records, and every method is
  a state-passing function `State → Result × State`, so that absence of
  mutation is a provable statement about the translation;
* a `raise` becomes an `Except` error value.
-/

/-- A 3-D point: the row `(x, y, z)` of the numpy coordinate array. -/
abbrev Point : Type := ℚ × ℚ × ℚ

/-- The data parsed out of a `.las` file by `laspy.read`: the three
coordinate arrays and the per-point classification array. -/
structure LasFile where
  x : List ℚ
  y : List ℚ
  z : List ℚ
  classification : List ℕ

/-- Embedding of `np.vstack((x, y, z)).transpose()`: rows of the stacked
array, i.e. the coordinate triples in file order. -/
def zip3 : List ℚ → List ℚ → List ℚ → List Point
  | a :: as, b :: bs, c :: cs => (a, b, c) :: zip3 as bs cs
  | _, _, _ => []

/-- Embedding of the `np.min` reduction on a 1-D array: `none` models the
`ValueError` numpy raises on a zero-size array. -/
def npMin : List ℚ → Option ℚ
  | [] => none
  | a :: as => some (as.foldl min a)

/-- Embedding of the `np.max` reduction on a 1-D array: `none` models the
`ValueError` numpy raises on a zero-size array. -/
def npMax : List ℚ → Option ℚ
  | [] => none
  | a :: as => some (as.foldl max a)

/-- Embedding of `np.unique`: the distinct values, sorted ascending. -/
def npUnique (l : List ℕ) : List ℕ :=
  List.insertionSort (· ≤ ·) l.dedup

/-- Embedding of numpy boolean-mask fancy indexing `arr[mask]`: keep the
entries whose mask bit is true, in order. -/
def maskSelect {α : Type} (l : List α) (mask : List Bool) : List α :=
  ((l.zip mask).filter (fun p => p.2)).map Prod.fst

/-- Embedding of `enumerate`: pair each element with its index. -/
def enumFrom {α : Type} : ℕ → List α → List (ℕ × α)
  | _, [] => []
  | n, a :: as => (n, a) :: enumFrom (n + 1) as

/-- Embedding of `np.linspace(lo, hi, n)`: `n` evenly spaced samples from
`lo` to `hi` inclusive. -/
def linspace (lo hi : ℚ) (n : ℕ) : List ℚ :=
  (List.range n).map (fun (i : ℕ) => lo + (hi - lo) * (i : ℚ) / ((n : ℚ) - 1))

/-- A 2-D numpy array. -/
abbrev Grid : Type := List (List ℚ)

/-- First result of `np.meshgrid(xs, ys)`: `xx[i][j] = xs[j]`, with one
row per element of `ys`. -/
def meshgridX (xs ys : List ℚ) : Grid :=
  ys.map (fun _ => xs)

/-- Second result of `np.meshgrid(xs, ys)`: `yy[i][j] = ys[i]`. -/
def meshgridY (xs ys : List ℚ) : Grid :=
  ys.map (fun yv => xs.map (fun _ => yv))

/-- Elementwise combination of two grids, as numpy broadcasts arithmetic
over arrays of equal shape. -/
def gridMap2 (f : ℚ → ℚ → ℚ) : Grid → Grid → Grid :=
  List.zipWith (List.zipWith f)

/-- An RGB color, the `[:3]` slice of a matplotlib colormap entry. -/
abbrev Color : Type := ℚ × ℚ × ℚ

/-- Result of fitting `sklearn.svm.SVC(kernel='linear')` on 3-D points
with binary labels: the single row `coef_[0]` of the coefficient matrix
and the single entry `intercept_[0]`. -/
structure SVMModel where
  coef0 : ℚ × ℚ × ℚ
  intercept0 : ℚ

/-- A Python exception observable in these scripts. -/
inductive PyErr where
  | valueError (msg : String)
  | keyError
deriving DecidableEq, Repr

/-- One `go.Scatter3d` trace added by `visualize`: the class it stands
for, the points carrying that class, and the class color. -/
structure Trace where
  cls : ℕ
  points : List Point
  color : Color
deriving DecidableEq, Repr

/-- The state of the `PointCloudVisualizer` class of
`PointCloudVisualizer.py` and `PointCloudVisualizer_laspy.py`: a file
path and an optional coordinate array. -/
structure VisStateU where
  file_path : String
  point_cloud : Option (List Point)
deriving DecidableEq

/-- The state of the labeled `PointCloudVisualizer` class of
`PointCloudVisualizer_go_label.py` and `more_vis/two_svm_plane.py`: a
file path, an optional coordinate array and an optional label array. -/
structure VisState where
  file_path : String
  point_cloud : Option (List Point)
  point_classes : Option (List ℕ)
deriving DecidableEq

/-- Embedding of `load_las_file` of the unlabeled visualizers
(`PointCloudVisualizer.py` lines 17-28, `PointCloudVisualizer_laspy.py`):
stack the parsed coordinate arrays into rows and store them. -/
def load_las_file_u (s : VisStateU) (las : LasFile) : VisStateU :=
  { s with point_cloud := some (zip3 las.x las.y las.z) }

/-- Embedding of `load_las_file` of the labeled visualizers
(`PointCloudVisualizer_go_label.py` lines 20-35, `two_svm_plane.py`
lines 21-36): store the stacked coordinate rows and the classification
array. -/
def load_las_file (s : VisState) (las : LasFile) : VisState :=
  { s with
    point_cloud := some (zip3 las.x las.y las.z)
    point_classes := some las.classification }

/-- Embedding of `get_color_map` on a classification array (`two_svm_plane.py`
lines 38-54 and identically `PointCloudVisualizer_go_label.py` lines 37-53):
the dict `{cls: cmap(i)[:3] for i, cls in enumerate(unique_classes)}` as an
association list in insertion order.  The matplotlib colormap
`plt.get_cmap('tab20', n)` is abstracted as `cmap n i`. -/
def get_color_map (cmap : ℕ → ℕ → Color) (pcs : List ℕ) : List (ℕ × Color) :=
  let u := npUnique pcs
  (enumFrom 0 u).map (fun ic => (ic.2, cmap u.length ic.1))

/-- Embedding of `train_svm` (`two_svm_plane.py` lines 56-86) on loaded
data: mask the rows whose class is in `[class_a, class_b]`, label them
`0` where the class equals `class_a` and `1` elsewhere via `np.where`,
fit the (abstracted) linear SVC, and return `coef_[0]` with
`intercept_[0]`. -/
def train_svm (svmFit : List Point → List ℕ → SVMModel)
    (pc : List Point) (pcs : List ℕ) (class_a class_b : ℕ) : ℚ × ℚ × ℚ × ℚ :=
  let mask := pcs.map (fun c => decide (c = class_a ∨ c = class_b))
  let points_filtered := maskSelect pc mask
  let classes_filtered := maskSelect pcs mask
  let labels := classes_filtered.map (fun c => if c = class_a then (0 : ℕ) else 1)
  let m := svmFit points_filtered labels
  (m.coef0.1, m.coef0.2.1, m.coef0.2.2, m.intercept0)

/-- Embedding of `plot_plane` (`two_svm_plane.py` lines 88-104): a 10×10
meshgrid over the given ranges and the z-grid
`zz = (-d - a*xx - b*yy) / c` (rational division, with `q / 0 = 0`
standing in for the unguarded floating-point division by zero). -/
def plot_plane (a b c d : ℚ) (x_range y_range : ℚ × ℚ) : Grid × Grid × Grid :=
  let xs := linspace x_range.1 x_range.2 10
  let ys := linspace y_range.1 y_range.2 10
  let xx := meshgridX xs ys
  let yy := meshgridY xs ys
  let zz := gridMap2 (fun xv yv => (-d - a * xv - b * yv) / c) xx yy
  (xx, yy, zz)

/-- Embedding of the per-class point selection in `visualize`:
`indices = np.where(point_classes == cls)` followed by
`point_cloud[indices]` keeps, in order, the rows whose class is `cls`. -/
def classPoints (pc : List Point) (pcs : List ℕ) (cls : ℕ) : List Point :=
  ((pc.zip pcs).filter (fun pr => pr.2 == cls)).map Prod.fst

/-- Sequencing of a fallible step over a list: the loop stops at the
first failure, as a raised exception aborts a Python `for` loop. -/
def optTraverse {α β : Type} (f : α → Option β) : List α → Option (List β)
  | [] => some []
  | a :: as =>
    match f a, optTraverse f as with
    | some b, some bs => some (b :: bs)
    | _, _ => none

/-- Embedding of the trace-building loop shared by `visualize` in
`PointCloudVisualizer_go_label.py` (lines 55-105) and `two_svm_plane.py`
(lines 116-148): one `Scatter3d` trace per unique class, colored by the
dict lookup `class_color_map[cls]`; a failed lookup is the `KeyError`
Python would raise, modeled by `none`. -/
def tracesFor (cmap : ℕ → ℕ → Color) (pc : List Point) (pcs : List ℕ) :
    Option (List Trace) :=
  let class_color_map := get_color_map cmap pcs
  optTraverse (fun cls =>
    (class_color_map.lookup cls).map (fun col =>
      { cls := cls, points := classPoints pc pcs cls, color := col }))
    (npUnique pcs)

/-- Embedding of `visualize` of `PointCloudVisualizer.py` (lines 30-44)
and `PointCloudVisualizer_laspy.py`: raise `ValueError` when no cloud is
loaded, otherwise hand the stored points to the renderer.  The result is
the data handed over, paired with the (unchanged) object state. -/
def visualize_u (s : VisStateU) : Except PyErr (List Point) × VisStateU :=
  match s.point_cloud with
  | none =>
      (Except.error (PyErr.valueError
        "No point cloud loaded. Please run `load_las_file()` first."), s)
  | some pc => (Except.ok pc, s)

/-- Embedding of `visualize` of `PointCloudVisualizer_go_label.py`
(lines 55-105): raise `ValueError` when cloud or classes are missing,
otherwise build one colored scatter trace per unique class. -/
def visualize_go (cmap : ℕ → ℕ → Color) (s : VisState) :
    Except PyErr (List Trace) × VisState :=
  match s.point_cloud, s.point_classes with
  | some pc, some pcs =>
      (match tracesFor cmap pc pcs with
       | some ts => Except.ok ts
       | none => Except.error PyErr.keyError, s)
  | _, _ =>
      (Except.error (PyErr.valueError
        "No point cloud loaded. Please run `load_las_file()` first."), s)

/-- A `go.Surface` trace: the three grids handed to plotly. -/
abbrev Surface : Type := Grid × Grid × Grid

/-- The figure built by the `two_svm_plane.py` `visualize`: the scatter
traces and the two SVM separating-plane surfaces. -/
structure SvmFigure where
  traces : List Trace
  plane1 : Surface
  plane2 : Surface

/-- Embedding of `visualize` of `two_svm_plane.py` (lines 106-194):
raise `ValueError` when data is missing; build the per-class traces;
take `x_range`/`y_range` as the `np.min`/`np.max` of the stored
coordinates (a `ValueError` on a zero-size array); train the SVM for
classes 1 vs 2 and 1 vs 3 and add the two plane surfaces, with no check
on the returned coefficients.  The SVC fit is abstracted as a total
function here, which suits properties quantifying over all fit results;
`visualize_svm_checked` below refines this definition with the fit's
own error path. -/
def visualize_svm (cmap : ℕ → ℕ → Color) (svmFit : List Point → List ℕ → SVMModel)
    (s : VisState) : Except PyErr SvmFigure × VisState :=
  match s.point_cloud, s.point_classes with
  | some pc, some pcs =>
      (match tracesFor cmap pc pcs with
       | none => Except.error PyErr.keyError
       | some ts =>
         match npMin (pc.map (fun p => p.1)), npMax (pc.map (fun p => p.1)),
               npMin (pc.map (fun p => p.2.1)), npMax (pc.map (fun p => p.2.1)) with
         | some xlo, some xhi, some ylo, some yhi =>
             let x_range := (xlo, xhi)
             let y_range := (ylo, yhi)
             let p1 := train_svm svmFit pc pcs 1 2
             let s1 := plot_plane p1.1 p1.2.1 p1.2.2.1 p1.2.2.2 x_range y_range
             let p2 := train_svm svmFit pc pcs 1 3
             let s2 := plot_plane p2.1 p2.2.1 p2.2.2.1 p2.2.2.2 x_range y_range
             Except.ok { traces := ts, plane1 := s1, plane2 := s2 }
         | _, _, _, _ =>
             Except.error (PyErr.valueError
               "zero-size array to reduction operation minimum which has no identity"),
       s)
  | _, _ =>
      (Except.error (PyErr.valueError
        "No point cloud loaded. Please run `load_las_file()` first."), s)

/-- State-passing wrapper of `get_color_map` as a method of the labeled
visualizer: it only reads `self.point_classes` and writes no field. -/
def get_color_map_m (cmap : ℕ → ℕ → Color) (s : VisState) :
    Option (List (ℕ × Color)) × VisState :=
  (s.point_classes.map (get_color_map cmap), s)

/-- State-passing wrapper of `train_svm` as a method: it only reads
`self.point_cloud` and `self.point_classes` and writes no field. -/
def train_svm_m (svmFit : List Point → List ℕ → SVMModel) (s : VisState)
    (class_a class_b : ℕ) : Option (ℚ × ℚ × ℚ × ℚ) × VisState :=
  (match s.point_cloud, s.point_classes with
   | some pc, some pcs => some (train_svm svmFit pc pcs class_a class_b)
   | _, _ => none, s)

/-- State-passing wrapper of `plot_plane` as a method: it reads no field
and writes no field. -/
def plot_plane_m (s : VisState) (a b c d : ℚ) (x_range y_range : ℚ × ℚ) :
    (Grid × Grid × Grid) × VisState :=
  (plot_plane a b c d x_range y_range, s)

/-- Embedding of `read_npy_file` (`utils/read_npy_file.py` lines 3-10):
the `np.load` call is abstracted as a function returning either the
array or a raised exception; the `try/except Exception` returns the
array on success and `None` on any exception. -/
def read_npy_file {α : Type} (npLoad : String → Except String α)
    (file_path : String) : Option α :=
  match npLoad file_path with
  | Except.ok data => some data
  | Except.error _ => none

/-- The dictionary returned by `get_xyz_ranges`: exactly the three keys
`x_range`, `y_range` and `z_range`, each a `(min, max)` pair. -/
structure XYZRanges where
  x_range : ℚ × ℚ
  y_range : ℚ × ℚ
  z_range : ℚ × ℚ
deriving DecidableEq, Repr

/-- Embedding of `get_xyz_ranges` (`utils/utils_range.py` lines 5-33):
read the file (abstracted to receiving the parsed `LasFile`), reduce
each coordinate array with `np.min`/`np.max`, and return the dictionary
of ranges; `none` models the `ValueError` of a reduction over a
zero-size array. -/
def get_xyz_ranges (las : LasFile) : Option XYZRanges :=
  match npMin las.x, npMax las.x, npMin las.y, npMax las.y,
        npMin las.z, npMax las.z with
  | some xmin, some xmax, some ymin, some ymax, some zmin, some zmax =>
      some { x_range := (xmin, xmax), y_range := (ymin, ymax),
             z_range := (zmin, zmax) }
  | _, _, _, _, _, _ => none

/-- Embedding of the input validation `sklearn`'s `SVC.fit` performs
before solving: fitting an empty training set raises `ValueError`
("Found array with 0 sample(s) ..."), as does a label vector with fewer
than two distinct classes ("The number of classes has to be greater
than one ..."); the message strings are representative of the library's
wording.  On valid input the solver itself stays abstract (`svmFit`). -/
def svc_fit (svmFit : List Point → List ℕ → SVMModel)
    (points : List Point) (labels : List ℕ) : Except PyErr SVMModel :=
  if points.length = 0 then
    Except.error (PyErr.valueError
      "Found array with 0 sample(s) (shape=(0, 3)) while a minimum of 1 is required by SVC.")
  else if (npUnique labels).length < 2 then
    Except.error (PyErr.valueError
      "The number of classes has to be greater than one; got 1 class")
  else Except.ok (svmFit points labels)

/-- Refinement of `train_svm` that models `SVC.fit`'s error path via
`svc_fit` instead of abstracting the fit as total: a raised fit
`ValueError` propagates to the caller. -/
def train_svm_checked (svmFit : List Point → List ℕ → SVMModel)
    (pc : List Point) (pcs : List ℕ) (class_a class_b : ℕ) :
    Except PyErr (ℚ × ℚ × ℚ × ℚ) :=
  let mask := pcs.map (fun c => decide (c = class_a ∨ c = class_b))
  let points_filtered := maskSelect pc mask
  let classes_filtered := maskSelect pcs mask
  let labels := classes_filtered.map (fun c => if c = class_a then (0 : ℕ) else 1)
  match svc_fit svmFit points_filtered labels with
  | Except.error e => Except.error e
  | Except.ok m => Except.ok (m.coef0.1, m.coef0.2.1, m.coef0.2.2, m.intercept0)

/-- Refinement of `visualize_svm` in which `SVC.fit`'s error path is
modeled (`visualize_svm` abstracts the fit as a total function, which
is adequate for properties quantifying over all fit results but hides
the `ValueError` that `svm.fit` raises on degenerate training data):
identical control flow, except that a fit error from either
`train_svm_checked` call aborts `visualize` with that error, as the
raised exception does in Python. -/
def visualize_svm_checked (cmap : ℕ → ℕ → Color)
    (svmFit : List Point → List ℕ → SVMModel) (s : VisState) :
    Except PyErr SvmFigure × VisState :=
  match s.point_cloud, s.point_classes with
  | some pc, some pcs =>
      (match tracesFor cmap pc pcs with
       | none => Except.error PyErr.keyError
       | some ts =>
         match npMin (pc.map (fun p => p.1)), npMax (pc.map (fun p => p.1)),
               npMin (pc.map (fun p => p.2.1)), npMax (pc.map (fun p => p.2.1)) with
         | some xlo, some xhi, some ylo, some yhi =>
             match train_svm_checked svmFit pc pcs 1 2 with
             | Except.error e => Except.error e
             | Except.ok p1 =>
               let s1 := plot_plane p1.1 p1.2.1 p1.2.2.1 p1.2.2.2 (xlo, xhi) (ylo, yhi)
               match train_svm_checked svmFit pc pcs 1 3 with
               | Except.error e => Except.error e
               | Except.ok p2 =>
                 let s2 := plot_plane p2.1 p2.2.1 p2.2.2.1 p2.2.2.2 (xlo, xhi) (ylo, yhi)
                 Except.ok { traces := ts, plane1 := s1, plane2 := s2 }
         | _, _, _, _ =>
             Except.error (PyErr.valueError
               "zero-size array to reduction operation minimum which has no identity"),
       s)
  | _, _ =>
      (Except.error (PyErr.valueError
        "No point cloud loaded. Please run `load_las_file()` first."), s)

/-- Specification-side description of the SVM training set, written
from the claim's words rather than from the code, for comparison with
`train_svm`: the classifier is fit on exactly those points whose
classification label is `class_a` or `class_b` (all other points are
excluded), a point receiving training label `0` if and only if its
classification equals `class_a` and `1` otherwise. -/
def svm_training_data_spec (pc : List Point) (pcs : List ℕ)
    (class_a class_b : ℕ) : List Point × List ℕ :=
  let kept := (pc.zip pcs).filter (fun pr => decide (pr.2 = class_a ∨ pr.2 = class_b))
  (kept.map Prod.fst, kept.map (fun pr => if pr.2 = class_a then 0 else 1))

/-! General lemmas about the embedded numpy primitives. -/

theorem zip3_length (as bs cs : List ℚ) (h1 : as.length = bs.length)
    (h2 : bs.length = cs.length) : (zip3 as bs cs).length = as.length := by
  induction as generalizing bs cs with
  | nil => cases bs <;> cases cs <;> simp [zip3]
  | cons a as ih =>
    cases bs with
    | nil => simp at h1
    | cons b bs =>
      cases cs with
      | nil => simp at h2
      | cons c cs =>
        simp only [zip3, List.length_cons] at h1 h2 ⊢
        rw [ih bs cs (by omega) (by omega)]

theorem zip3_getD (as bs cs : List ℚ) (i : ℕ) (ha : i < as.length)
    (hb : i < bs.length) (hc : i < cs.length) :
    (zip3 as bs cs).getD i (0, 0, 0) = (as.getD i 0, bs.getD i 0, cs.getD i 0) := by
  induction as generalizing bs cs i with
  | nil => simp at ha
  | cons a as ih =>
    cases bs with
    | nil => simp at hb
    | cons b bs =>
      cases cs with
      | nil => simp at hc
      | cons c cs =>
        cases i with
        | zero => simp [zip3]
        | succ i =>
          simp only [zip3, List.getD_cons_succ]
          exact ih bs cs i (by simpa using ha) (by simpa using hb) (by simpa using hc)

theorem foldl_min_le (xs : List ℚ) (a : ℚ) :
    xs.foldl min a ≤ a ∧ ∀ v ∈ xs, xs.foldl min a ≤ v := by
  induction xs generalizing a with
  | nil => simp
  | cons x xs ih =>
    refine ⟨?_, ?_⟩
    · calc (x :: xs).foldl min a = xs.foldl min (min a x) := by simp
      _ ≤ min a x := (ih (min a x)).1
      _ ≤ a := min_le_left _ _
    · intro v hv
      rcases List.mem_cons.1 hv with rfl | hv
      · calc (v :: xs).foldl min a = xs.foldl min (min a v) := by simp
        _ ≤ min a v := (ih (min a v)).1
        _ ≤ v := min_le_right _ _
      · simpa using (ih (min a x)).2 v hv

theorem foldl_min_mem (xs : List ℚ) (a : ℚ) :
    xs.foldl min a = a ∨ xs.foldl min a ∈ xs := by
  induction xs generalizing a with
  | nil => simp
  | cons x xs ih =>
    have h := ih (min a x)
    rcases h with h | h
    · rcases min_cases a x with ⟨hm, _⟩ | ⟨hm, _⟩
      · left; simpa [hm] using h
      · right; simp only [List.foldl_cons]; rw [h, hm]; exact List.mem_cons_self _ _
    · right
      simp only [List.foldl_cons]
      exact List.mem_cons_of_mem _ h

theorem foldl_max_ge (xs : List ℚ) (a : ℚ) :
    a ≤ xs.foldl max a ∧ ∀ v ∈ xs, v ≤ xs.foldl max a := by
  induction xs generalizing a with
  | nil => simp
  | cons x xs ih =>
    refine ⟨?_, ?_⟩
    · calc a ≤ max a x := le_max_left _ _
      _ ≤ xs.foldl max (max a x) := (ih (max a x)).1
      _ = (x :: xs).foldl max a := by simp
    · intro v hv
      rcases List.mem_cons.1 hv with rfl | hv
      · calc v ≤ max a v := le_max_right _ _
        _ ≤ xs.foldl max (max a v) := (ih (max a v)).1
        _ = (v :: xs).foldl max a := by simp
      · simpa using (ih (max a x)).2 v hv

theorem foldl_max_mem (xs : List ℚ) (a : ℚ) :
    xs.foldl max a = a ∨ xs.foldl max a ∈ xs := by
  induction xs generalizing a with
  | nil => simp
  | cons x xs ih =>
    have h := ih (max a x)
    rcases h with h | h
    · rcases max_cases a x with ⟨hm, _⟩ | ⟨hm, _⟩
      · left; simpa [hm] using h
      · right; simp only [List.foldl_cons]; rw [h, hm]; exact List.mem_cons_self _ _
    · right
      simp only [List.foldl_cons]
      exact List.mem_cons_of_mem _ h

theorem npMin_spec (l : List ℚ) (m : ℚ) (h : npMin l = some m) :
    m ∈ l ∧ ∀ v ∈ l, m ≤ v := by
  cases l with
  | nil => simp [npMin] at h
  | cons a as =>
    simp only [npMin, Option.some.injEq] at h
    subst h
    constructor
    · rcases foldl_min_mem as a with h | h
      · rw [h]; exact List.mem_cons_self _ _
      · exact List.mem_cons_of_mem _ h
    · intro v hv
      rcases List.mem_cons.1 hv with rfl | hv
      · exact (foldl_min_le as v).1
      · exact (foldl_min_le as a).2 v hv

theorem npMax_spec (l : List ℚ) (m : ℚ) (h : npMax l = some m) :
    m ∈ l ∧ ∀ v ∈ l, v ≤ m := by
  cases l with
  | nil => simp [npMax] at h
  | cons a as =>
    simp only [npMax, Option.some.injEq] at h
    subst h
    constructor
    · rcases foldl_max_mem as a with h | h
      · rw [h]; exact List.mem_cons_self _ _
      · exact List.mem_cons_of_mem _ h
    · intro v hv
      rcases List.mem_cons.1 hv with rfl | hv
      · exact (foldl_max_ge as v).1
      · exact (foldl_max_ge as a).2 v hv

theorem npMin_isSome_of_ne_nil (l : List ℚ) (h : l ≠ []) : ∃ m, npMin l = some m := by
  cases l with
  | nil => exact absurd rfl h
  | cons a as => exact ⟨as.foldl min a, rfl⟩

theorem npMax_isSome_of_ne_nil (l : List ℚ) (h : l ≠ []) : ∃ m, npMax l = some m := by
  cases l with
  | nil => exact absurd rfl h
  | cons a as => exact ⟨as.foldl max a, rfl⟩

theorem maskSelect_nil {α : Type} (mask : List Bool) :
    maskSelect ([] : List α) mask = [] := by
  cases mask <;> rfl

theorem maskSelect_cons {α : Type} (a : α) (l : List α) (b : Bool) (mask : List Bool) :
    maskSelect (a :: l) (b :: mask) =
      if b then a :: maskSelect l mask else maskSelect l mask := by
  cases b <;> simp [maskSelect]

theorem maskSelect_map_fst (pc : List Point) (pcs : List ℕ) (f : ℕ → Bool)
    (h : pc.length = pcs.length) :
    maskSelect pc (pcs.map f) =
      ((pc.zip pcs).filter (fun pr => f pr.2)).map Prod.fst := by
  induction pc generalizing pcs with
  | nil => simp [maskSelect_nil]
  | cons p pc ih =>
    cases pcs with
    | nil => simp at h
    | cons c pcs =>
      simp only [List.map_cons, maskSelect_cons, List.zip_cons_cons, List.filter_cons]
      rw [ih pcs (by simpa using h)]
      by_cases hc : f c <;> simp [hc]

theorem maskSelect_map_snd (pc : List Point) (pcs : List ℕ) (f : ℕ → Bool)
    (h : pc.length = pcs.length) :
    maskSelect pcs (pcs.map f) =
      ((pc.zip pcs).filter (fun pr => f pr.2)).map Prod.snd := by
  induction pc generalizing pcs with
  | nil =>
    cases pcs with
    | nil => simp [maskSelect_nil]
    | cons c pcs => simp at h
  | cons p pc ih =>
    cases pcs with
    | nil => simp at h
    | cons c pcs =>
      simp only [List.map_cons, maskSelect_cons, List.zip_cons_cons, List.filter_cons]
      rw [ih pcs (by simpa using h)]
      by_cases hc : f c <;> simp [hc]

theorem npUnique_mem (l : List ℕ) (c : ℕ) : c ∈ npUnique l ↔ c ∈ l := by
  unfold npUnique
  rw [(List.perm_insertionSort (· ≤ ·) l.dedup).mem_iff]
  exact List.mem_dedup

theorem npUnique_nodup (l : List ℕ) : (npUnique l).Nodup := by
  unfold npUnique
  exact ((List.perm_insertionSort (· ≤ ·) l.dedup).nodup_iff).2 l.nodup_dedup

theorem enumFrom_map_snd {α : Type} (n : ℕ) (l : List α) :
    (enumFrom n l).map Prod.snd = l := by
  induction l generalizing n with
  | nil => rfl
  | cons a as ih => simp [enumFrom, ih]

theorem get_color_map_keys (cmap : ℕ → ℕ → Color) (pcs : List ℕ) :
    (get_color_map cmap pcs).map Prod.fst = npUnique pcs := by
  unfold get_color_map
  rw [List.map_map]
  exact enumFrom_map_snd 0 (npUnique pcs)

theorem lookup_isSome_of_mem_keys {β : Type} (l : List (ℕ × β)) (a : ℕ)
    (h : a ∈ l.map Prod.fst) : ∃ b, l.lookup a = some b := by
  induction l with
  | nil => simp at h
  | cons p l ih =>
    obtain ⟨k, v⟩ := p
    by_cases hp : a = k
    · exact ⟨v, by simp [List.lookup_cons, hp]⟩
    · have ha : a ∈ l.map Prod.fst := by
        simp only [List.map_cons, List.mem_cons] at h
        rcases h with h1 | h1
        · exact absurd h1 hp
        · exact h1
      obtain ⟨b, hb⟩ := ih ha
      have hak : (a == k) = false := by simp [hp]
      exact ⟨b, by simp [List.lookup_cons, hak, hb]⟩

theorem optTraverse_of_forall {α β : Type} (f : α → Option β) (g : α → β)
    (l : List α) (h : ∀ a ∈ l, f a = some (g a)) :
    optTraverse f l = some (l.map g) := by
  induction l with
  | nil => rfl
  | cons a as ih =>
    have ha := h a (List.mem_cons_self _ _)
    have has := ih (fun x hx => h x (List.mem_cons_of_mem _ hx))
    simp [optTraverse, ha, has]

theorem mem_classPoints (pc : List Point) (pcs : List ℕ) (cls : ℕ) (p : Point) :
    p ∈ classPoints pc pcs cls ↔ (p, cls) ∈ pc.zip pcs := by
  unfold classPoints
  simp only [List.mem_map, List.mem_filter, beq_iff_eq]
  constructor
  · rintro ⟨pr, ⟨hmem, hcls⟩, rfl⟩
    have : pr = (pr.1, cls) := by
      cases pr
      simp_all
    rwa [this] at hmem
  · intro hmem
    exact ⟨(p, cls), ⟨hmem, rfl⟩, rfl⟩
theorem getD_map_of_lt {α β : Type} (f : α → β) (l : List α) (i : ℕ)
    (h : i < l.length) (d : β) (d0 : α) :
    (l.map f).getD i d = f (l.getD i d0) := by
  induction l generalizing i with
  | nil => simp at h
  | cons a as ih =>
    cases i with
    | zero => simp
    | succ i => simpa using ih i (by simpa using h)

theorem getD_zipWith_of_lt {α β γ : Type} (f : α → β → γ) (as : List α)
    (bs : List β) (i : ℕ) (ha : i < as.length) (hb : i < bs.length)
    (d : γ) (da : α) (db : β) :
    (List.zipWith f as bs).getD i d = f (as.getD i da) (bs.getD i db) := by
  induction as generalizing bs i with
  | nil => simp at ha
  | cons a as ih =>
    cases bs with
    | nil => simp at hb
    | cons b bs =>
      cases i with
      | zero => simp
      | succ i =>
        simpa using ih bs i (by simpa using ha) (by simpa using hb)

theorem linspace_length (lo hi : ℚ) (n : ℕ) : (linspace lo hi n).length = n := by
  unfold linspace
  rw [List.length_map, List.length_range]

theorem linspace_getD (lo hi : ℚ) (n j : ℕ) (hj : j < n) :
    (linspace lo hi n).getD j 0 = lo + (hi - lo) * j / (n - 1) := by
  unfold linspace
  rw [getD_map_of_lt _ _ j (by rw [List.length_range]; exact hj) 0 0]
  have hr : (List.range n).getD j 0 = j := by
    rw [List.getD_eq_getElem?_getD, List.getElem?_range hj]
    rfl
  rw [hr]

theorem linspace_bounds (lo hi : ℚ) (h : lo ≤ hi) (j : ℕ) (hj : j ≤ 9) :
    lo ≤ lo + (hi - lo) * j / 9 ∧ lo + (hi - lo) * j / 9 ≤ hi := by
  have h9 : (0 : ℚ) < 9 := by norm_num
  have hj9 : (j : ℚ) ≤ 9 := by exact_mod_cast hj
  have hj0 : (0 : ℚ) ≤ j := Nat.cast_nonneg j
  have hd : (0 : ℚ) ≤ hi - lo := sub_nonneg.2 h
  constructor
  · have : (0 : ℚ) ≤ (hi - lo) * j / 9 := by positivity
    linarith
  · have hmul : (hi - lo) * j ≤ (hi - lo) * 9 := mul_le_mul_of_nonneg_left hj9 hd
    have : (hi - lo) * j / 9 ≤ hi - lo := by
      rw [div_le_iff₀ h9]
      linarith
    linarith

theorem plot_plane_shape (a b c d : ℚ) (xr yr : ℚ × ℚ) (i : ℕ) (hi : i < 10) :
    (plot_plane a b c d xr yr).1.length = 10 ∧
    (plot_plane a b c d xr yr).2.1.length = 10 ∧
    (plot_plane a b c d xr yr).2.2.length = 10 ∧
    ((plot_plane a b c d xr yr).1.getD i []).length = 10 ∧
    ((plot_plane a b c d xr yr).2.1.getD i []).length = 10 ∧
    ((plot_plane a b c d xr yr).2.2.getD i []).length = 10 := by
  have hl : ∀ q1 q2 : ℚ, (linspace q1 q2 10).length = 10 := fun q1 q2 =>
    linspace_length q1 q2 10
  simp only [plot_plane, meshgridX, meshgridY, gridMap2]
  refine ⟨by simp [hl], by simp [hl], ?_, ?_, ?_, ?_⟩
  · rw [List.length_zipWith]
    simp [hl]
  · rw [getD_map_of_lt _ _ i (by simpa [hl] using hi) [] 0]
    exact hl _ _
  · rw [getD_map_of_lt _ _ i (by simpa [hl] using hi) [] 0]
    simp [hl]
  · rw [getD_zipWith_of_lt _ _ _ i (by simpa [hl] using hi)
      (by simpa [hl] using hi) [] [] []]
    rw [List.length_zipWith]
    rw [getD_map_of_lt _ _ i (by simpa [hl] using hi) [] 0]
    rw [getD_map_of_lt _ _ i (by simpa [hl] using hi) [] 0]
    simp [hl]

theorem plot_plane_getD (a b c d : ℚ) (lo1 hi1 lo2 hi2 : ℚ) (i j : ℕ)
    (hi : i < 10) (hj : j < 10) :
    ((plot_plane a b c d (lo1, hi1) (lo2, hi2)).1.getD i []).getD j 0 =
        lo1 + (hi1 - lo1) * j / 9 ∧
    ((plot_plane a b c d (lo1, hi1) (lo2, hi2)).2.1.getD i []).getD j 0 =
        lo2 + (hi2 - lo2) * i / 9 ∧
    ((plot_plane a b c d (lo1, hi1) (lo2, hi2)).2.2.getD i []).getD j 0 =
        (-d - a * (lo1 + (hi1 - lo1) * j / 9) -
          b * (lo2 + (hi2 - lo2) * i / 9)) / c := by
  have hl : ∀ q1 q2 : ℚ, (linspace q1 q2 10).length = 10 := fun q1 q2 =>
    linspace_length q1 q2 10
  have h10 : ((10 : ℕ) : ℚ) - 1 = 9 := by norm_num
  have hxj : (linspace lo1 hi1 10).getD j 0 = lo1 + (hi1 - lo1) * j / 9 := by
    rw [linspace_getD lo1 hi1 10 j hj, h10]
  have hyi : (linspace lo2 hi2 10).getD i 0 = lo2 + (hi2 - lo2) * i / 9 := by
    rw [linspace_getD lo2 hi2 10 i hi, h10]
  simp only [plot_plane, meshgridX, meshgridY, gridMap2]
  have hxx : ((List.map (fun _ => linspace lo1 hi1 10)
        (linspace lo2 hi2 10)).getD i []).getD j 0 = lo1 + (hi1 - lo1) * j / 9 := by
    rw [getD_map_of_lt _ _ i (by simpa [hl] using hi) [] 0]
    exact hxj
  have hyy : ((List.map (fun yv => List.map (fun _ => yv) (linspace lo1 hi1 10))
        (linspace lo2 hi2 10)).getD i []).getD j 0 = lo2 + (hi2 - lo2) * i / 9 := by
    rw [getD_map_of_lt _ _ i (by simpa [hl] using hi) [] 0]
    rw [getD_map_of_lt _ _ j (by simpa [hl] using hj) 0 0]
    exact hyi
  refine ⟨hxx, hyy, ?_⟩
  rw [getD_zipWith_of_lt _ _ _ i (by simpa [hl] using hi) (by simpa [hl] using hi) [] [] []]
  rw [getD_zipWith_of_lt _ _ _ j ?hlen1 ?hlen2 0 0 0]
  case hlen1 =>
    rw [getD_map_of_lt _ _ i (by simpa [hl] using hi) [] 0]
    simpa [hl] using hj
  case hlen2 =>
    rw [getD_map_of_lt _ _ i (by simpa [hl] using hi) [] 0]
    simpa [hl] using hj
  rw [getD_map_of_lt _ _ i (by simpa [hl] using hi) [] 0]
  rw [getD_map_of_lt _ _ i (by simpa [hl] using hi) [] 0]
  rw [getD_map_of_lt _ _ j (by simpa [hl] using hj) 0 0]
  rw [hxj, hyi]

theorem tracesFor_eq (cmap : ℕ → ℕ → Color) (pc : List Point) (pcs : List ℕ) :
    tracesFor cmap pc pcs = some ((npUnique pcs).map (fun cls =>
      { cls := cls, points := classPoints pc pcs cls,
        color := ((get_color_map cmap pcs).lookup cls).getD (0, 0, 0) })) := by
  simp only [tracesFor]
  apply optTraverse_of_forall
  intro cls hcls
  have hk : cls ∈ (get_color_map cmap pcs).map Prod.fst := by
    rw [get_color_map_keys]
    exact hcls
  obtain ⟨col, hcol⟩ := lookup_isSome_of_mem_keys _ _ hk
  simp [hcol]

/-! Claim theorems. -/

/-- C7: for every file path, `read_npy_file` returns the loaded array
when the underlying `np.load` succeeds and `None` whenever the load
raises; the `try/except Exception` means no exception propagates (the
embedded function is total). -/
theorem read_npy_file_never_raises {α : Type} (npLoad : String → Except String α)
    (file_path : String) :
    read_npy_file npLoad file_path = (npLoad file_path).toOption ∧
    (∀ d : α, npLoad file_path = Except.ok d →
      read_npy_file npLoad file_path = some d) ∧
    (∀ e : String, npLoad file_path = Except.error e →
      read_npy_file npLoad file_path = none) := by
  refine ⟨?_, ?_, ?_⟩
  · cases h : npLoad file_path <;> simp [read_npy_file, Except.toOption, h]
  · intro d hd
    simp [read_npy_file, hd]
  · intro e he
    simp [read_npy_file, he]

/-- Witness for C7 at a concrete loader: a successful load yields the
array, a raising load yields `None`. -/
theorem read_npy_file_never_raises_witness :
    read_npy_file (fun _ => Except.ok (7 : ℕ)) "your_file.npy" = some 7 ∧
    read_npy_file (fun _ : String => (Except.error "An error occurred" : Except String ℕ))
      "your_file.npy" = none := by
  constructor
  · exact (read_npy_file_never_raises (fun _ => Except.ok (7 : ℕ))
      "your_file.npy").2.1 7 rfl
  · exact (read_npy_file_never_raises
      (fun _ : String => (Except.error "An error occurred" : Except String ℕ))
      "your_file.npy").2.2 "An error occurred" rfl

/-- C5: `load_las_file` stores one row per file point, in file order:
the `i`-th stored row is `(x[i], y[i], z[i])` from the file's coordinate
arrays. -/
theorem load_las_file_preserves_file_order (s : VisStateU) (las : LasFile)
    (hxy : las.x.length = las.y.length) (hyz : las.y.length = las.z.length) :
    ∃ pts : List Point, (load_las_file_u s las).point_cloud = some pts ∧
      pts.length = las.x.length ∧
      ∀ i, i < pts.length →
        pts.getD i (0, 0, 0) = (las.x.getD i 0, las.y.getD i 0, las.z.getD i 0) := by
  refine ⟨zip3 las.x las.y las.z, rfl, zip3_length _ _ _ hxy hyz, ?_⟩
  intro i hi
  rw [zip3_length _ _ _ hxy hyz] at hi
  exact zip3_getD _ _ _ i hi (by omega) (by omega)

/-- Witness for C5 at a concrete two-point file. -/
theorem load_las_file_preserves_file_order_witness :
    ∃ pts : List Point,
      (load_las_file_u ⟨"demo.las", none⟩ ⟨[1, 2], [3, 4], [5, 6], [0, 1]⟩).point_cloud =
        some pts ∧
      pts.length = ([1, 2] : List ℚ).length ∧
      ∀ i, i < pts.length →
        pts.getD i (0, 0, 0) =
          (([1, 2] : List ℚ).getD i 0, ([3, 4] : List ℚ).getD i 0,
            ([5, 6] : List ℚ).getD i 0) :=
  load_las_file_preserves_file_order ⟨"demo.las", none⟩
    ⟨[1, 2], [3, 4], [5, 6], [0, 1]⟩ rfl rfl

/-- C4: the loaded point cloud is read-only: `get_color_map`,
`train_svm`, `plot_plane` and every `visualize` variant return the
object state unchanged (so `point_cloud`, `point_classes` and
`file_path` are untouched). -/
theorem visualizer_state_read_only (s : VisState) (sU : VisStateU)
    (cmap : ℕ → ℕ → Color) (svmFit : List Point → List ℕ → SVMModel)
    (class_a class_b : ℕ) (a b c d : ℚ) (x_range y_range : ℚ × ℚ) :
    (get_color_map_m cmap s).2 = s ∧
    (train_svm_m svmFit s class_a class_b).2 = s ∧
    (plot_plane_m s a b c d x_range y_range).2 = s ∧
    (visualize_svm cmap svmFit s).2 = s ∧
    (visualize_go cmap s).2 = s ∧
    (visualize_u sU).2 = sU := by
  refine ⟨rfl, rfl, rfl, ?_, ?_, ?_⟩
  · rcases s with ⟨fp, pc, pcs⟩
    cases pc <;> cases pcs <;> rfl
  · rcases s with ⟨fp, pc, pcs⟩
    cases pc <;> cases pcs <;> rfl
  · rcases sU with ⟨fp, pc⟩
    cases pc <;> rfl

/-- C2: after a successful load the stored coordinate rows and the
stored labels have equal length, and every subsequent operation leaves
the state (hence that equality) unchanged. -/
theorem load_las_file_length_invariant (s0 : VisState) (las : LasFile)
    (cmap : ℕ → ℕ → Color) (svmFit : List Point → List ℕ → SVMModel)
    (class_a class_b : ℕ) (a b c d : ℚ) (x_range y_range : ℚ × ℚ)
    (hxy : las.x.length = las.y.length) (hyz : las.y.length = las.z.length)
    (hzc : las.z.length = las.classification.length) :
    ∃ (pts : List Point) (cls : List ℕ),
      (load_las_file s0 las).point_cloud = some pts ∧
      (load_las_file s0 las).point_classes = some cls ∧
      pts.length = cls.length ∧
      (get_color_map_m cmap (load_las_file s0 las)).2 = load_las_file s0 las ∧
      (train_svm_m svmFit (load_las_file s0 las) class_a class_b).2 =
        load_las_file s0 las ∧
      (plot_plane_m (load_las_file s0 las) a b c d x_range y_range).2 =
        load_las_file s0 las ∧
      (visualize_svm cmap svmFit (load_las_file s0 las)).2 = load_las_file s0 las ∧
      (visualize_go cmap (load_las_file s0 las)).2 = load_las_file s0 las := by
  refine ⟨zip3 las.x las.y las.z, las.classification, rfl, rfl, ?_, rfl, rfl, rfl, ?_, ?_⟩
  · rw [zip3_length _ _ _ hxy hyz]
    omega
  · rfl
  · rfl

/-- Witness for C2 at a concrete one-point file. -/
theorem load_las_file_length_invariant_witness :
    ∃ (pts : List Point) (cls : List ℕ),
      (load_las_file ⟨"demo.las", none, none⟩ ⟨[1], [2], [3], [4]⟩).point_cloud =
        some pts ∧
      (load_las_file ⟨"demo.las", none, none⟩ ⟨[1], [2], [3], [4]⟩).point_classes =
        some cls ∧
      pts.length = cls.length ∧
      (get_color_map_m (fun _ _ => (0, 0, 0))
          (load_las_file ⟨"demo.las", none, none⟩ ⟨[1], [2], [3], [4]⟩)).2 =
        load_las_file ⟨"demo.las", none, none⟩ ⟨[1], [2], [3], [4]⟩ ∧
      (train_svm_m (fun _ _ => ⟨(0, 0, 0), 0⟩)
          (load_las_file ⟨"demo.las", none, none⟩ ⟨[1], [2], [3], [4]⟩) 1 2).2 =
        load_las_file ⟨"demo.las", none, none⟩ ⟨[1], [2], [3], [4]⟩ ∧
      (plot_plane_m (load_las_file ⟨"demo.las", none, none⟩ ⟨[1], [2], [3], [4]⟩)
          0 0 1 0 (0, 1) (0, 1)).2 =
        load_las_file ⟨"demo.las", none, none⟩ ⟨[1], [2], [3], [4]⟩ ∧
      (visualize_svm (fun _ _ => (0, 0, 0)) (fun _ _ => ⟨(0, 0, 0), 0⟩)
          (load_las_file ⟨"demo.las", none, none⟩ ⟨[1], [2], [3], [4]⟩)).2 =
        load_las_file ⟨"demo.las", none, none⟩ ⟨[1], [2], [3], [4]⟩ ∧
      (visualize_go (fun _ _ => (0, 0, 0))
          (load_las_file ⟨"demo.las", none, none⟩ ⟨[1], [2], [3], [4]⟩)).2 =
        load_las_file ⟨"demo.las", none, none⟩ ⟨[1], [2], [3], [4]⟩ :=
  load_las_file_length_invariant ⟨"demo.las", none, none⟩ ⟨[1], [2], [3], [4]⟩
    (fun _ _ => (0, 0, 0)) (fun _ _ => ⟨(0, 0, 0), 0⟩) 1 2 0 0 1 0 (0, 1) (0, 1)
    rfl rfl rfl

/-- C1: `train_svm` fits the classifier on exactly the points whose
classification is `class_a` or `class_b`, with training label `0` iff
the classification equals `class_a` and `1` otherwise, and returns
`coef_[0]` together with `intercept_[0]`: the code's mask-based
selection coincides with the specification-side training set. -/
theorem train_svm_fits_on_selected_points (svmFit : List Point → List ℕ → SVMModel)
    (pc : List Point) (pcs : List ℕ) (class_a class_b : ℕ)
    (h : pc.length = pcs.length) :
    (train_svm svmFit pc pcs class_a class_b =
      (let data := svm_training_data_spec pc pcs class_a class_b
       let m := svmFit data.1 data.2
       (m.coef0.1, m.coef0.2.1, m.coef0.2.2, m.intercept0))) ∧
    (∀ pr : Point × ℕ,
      pr ∈ (pc.zip pcs).filter (fun pr => decide (pr.2 = class_a ∨ pr.2 = class_b)) ↔
        pr ∈ pc.zip pcs ∧ (pr.2 = class_a ∨ pr.2 = class_b)) ∧
    (∀ cls : ℕ,
      ((if cls = class_a then (0 : ℕ) else 1) = 0 ↔ cls = class_a) ∧
      ((if cls = class_a then (0 : ℕ) else 1) = 1 ↔ cls ≠ class_a)) := by
  refine ⟨?_, ?_, ?_⟩
  · simp only [train_svm, svm_training_data_spec]
    rw [maskSelect_map_fst pc pcs _ h, maskSelect_map_snd pc pcs _ h, List.map_map]
    rfl
  · intro pr
    simp [List.mem_filter]
  · intro cls
    by_cases hc : cls = class_a <;> simp [hc]

/-- Witness for C1 at a concrete three-point cloud with classes 1, 2, 7
and a concrete fit function. -/
theorem train_svm_fits_on_selected_points_witness :
    ([((0 : ℚ), (0 : ℚ), (0 : ℚ)), (1, 1, 1), (2, 2, 2)] : List Point).length =
      ([1, 2, 7] : List ℕ).length ∧
    train_svm (fun _ _ => ⟨(1, 2, 3), 4⟩)
        [((0 : ℚ), (0 : ℚ), (0 : ℚ)), (1, 1, 1), (2, 2, 2)] [1, 2, 7] 1 2 =
      (let data := svm_training_data_spec
          [((0 : ℚ), (0 : ℚ), (0 : ℚ)), (1, 1, 1), (2, 2, 2)] [1, 2, 7] 1 2
       let m := (fun (_ : List Point) (_ : List ℕ) => SVMModel.mk (1, 2, 3) 4)
          data.1 data.2
       (m.coef0.1, m.coef0.2.1, m.coef0.2.2, m.intercept0)) :=
  ⟨rfl,
    (train_svm_fits_on_selected_points (fun _ _ => ⟨(1, 2, 3), 4⟩)
      [((0 : ℚ), (0 : ℚ), (0 : ℚ)), (1, 1, 1), (2, 2, 2)] [1, 2, 7] 1 2 rfl).1⟩

/-- C6: the color-map keys are exactly the distinct classification
labels, every per-class lookup in `visualize` succeeds, and each
distinct label yields exactly one trace whose points are exactly the
points carrying that label. -/
theorem get_color_map_covers_all_classes (cmap : ℕ → ℕ → Color)
    (pc : List Point) (pcs : List ℕ) :
    ((get_color_map cmap pcs).map Prod.fst = npUnique pcs) ∧
    (∀ c : ℕ, c ∈ (get_color_map cmap pcs).map Prod.fst ↔ c ∈ pcs) ∧
    (npUnique pcs).Nodup ∧
    ∃ ts : List Trace,
      tracesFor cmap pc pcs = some ts ∧
      ts.map Trace.cls = npUnique pcs ∧
      ∀ t ∈ ts, (∀ p : Point, p ∈ t.points ↔ (p, t.cls) ∈ pc.zip pcs) ∧
        (get_color_map cmap pcs).lookup t.cls = some t.color := by
  refine ⟨get_color_map_keys cmap pcs, ?_, npUnique_nodup pcs, ?_⟩
  · intro c
    rw [get_color_map_keys]
    exact npUnique_mem pcs c
  · refine ⟨_, tracesFor_eq cmap pc pcs, ?_, ?_⟩
    · rw [List.map_map]
      exact List.map_id _
    · intro t ht
      obtain ⟨cls, hcls, rfl⟩ := List.mem_map.1 ht
      refine ⟨fun p => mem_classPoints pc pcs cls p, ?_⟩
      have hk : cls ∈ (get_color_map cmap pcs).map Prod.fst := by
        rw [get_color_map_keys]
        exact hcls
      obtain ⟨col, hcol⟩ := lookup_isSome_of_mem_keys _ _ hk
      simp [hcol]

/-- C9: on a file with at least one point, `get_xyz_ranges` returns the
dictionary of per-axis `(min, max)` pairs: each pair bounds every
coordinate on its axis, is attained by some point, and satisfies
`min ≤ max`. -/
theorem get_xyz_ranges_min_max (las : LasFile)
    (hx : las.x ≠ []) (hy : las.y ≠ []) (hz : las.z ≠ []) :
    ∃ r : XYZRanges, get_xyz_ranges las = some r ∧
      (r.x_range.1 ∈ las.x ∧ ∀ v ∈ las.x, r.x_range.1 ≤ v) ∧
      (r.x_range.2 ∈ las.x ∧ ∀ v ∈ las.x, v ≤ r.x_range.2) ∧
      r.x_range.1 ≤ r.x_range.2 ∧
      (r.y_range.1 ∈ las.y ∧ ∀ v ∈ las.y, r.y_range.1 ≤ v) ∧
      (r.y_range.2 ∈ las.y ∧ ∀ v ∈ las.y, v ≤ r.y_range.2) ∧
      r.y_range.1 ≤ r.y_range.2 ∧
      (r.z_range.1 ∈ las.z ∧ ∀ v ∈ las.z, r.z_range.1 ≤ v) ∧
      (r.z_range.2 ∈ las.z ∧ ∀ v ∈ las.z, v ≤ r.z_range.2) ∧
      r.z_range.1 ≤ r.z_range.2 := by
  obtain ⟨xm, hxm⟩ := npMin_isSome_of_ne_nil las.x hx
  obtain ⟨xM, hxM⟩ := npMax_isSome_of_ne_nil las.x hx
  obtain ⟨ym, hym⟩ := npMin_isSome_of_ne_nil las.y hy
  obtain ⟨yM, hyM⟩ := npMax_isSome_of_ne_nil las.y hy
  obtain ⟨zm, hzm⟩ := npMin_isSome_of_ne_nil las.z hz
  obtain ⟨zM, hzM⟩ := npMax_isSome_of_ne_nil las.z hz
  have hxmin := npMin_spec las.x xm hxm
  have hxmax := npMax_spec las.x xM hxM
  have hymin := npMin_spec las.y ym hym
  have hymax := npMax_spec las.y yM hyM
  have hzmin := npMin_spec las.z zm hzm
  have hzmax := npMax_spec las.z zM hzM
  refine ⟨⟨(xm, xM), (ym, yM), (zm, zM)⟩, ?_, ⟨hxmin.1, hxmin.2⟩,
    ⟨hxmax.1, hxmax.2⟩, hxmax.2 xm hxmin.1, ⟨hymin.1, hymin.2⟩,
    ⟨hymax.1, hymax.2⟩, hymax.2 ym hymin.1, ⟨hzmin.1, hzmin.2⟩,
    ⟨hzmax.1, hzmax.2⟩, hzmax.2 zm hzmin.1⟩
  unfold get_xyz_ranges
  rw [hxm, hxM, hym, hyM, hzm, hzM]

/-- Witness for C9 at a concrete two-point file. -/
theorem get_xyz_ranges_min_max_witness :
    ∃ r : XYZRanges, get_xyz_ranges ⟨[1, 2], [4, 3], [5, 5], [0, 0]⟩ = some r ∧
      (r.x_range.1 ∈ ([1, 2] : List ℚ) ∧ ∀ v ∈ ([1, 2] : List ℚ), r.x_range.1 ≤ v) ∧
      (r.x_range.2 ∈ ([1, 2] : List ℚ) ∧ ∀ v ∈ ([1, 2] : List ℚ), v ≤ r.x_range.2) ∧
      r.x_range.1 ≤ r.x_range.2 ∧
      (r.y_range.1 ∈ ([4, 3] : List ℚ) ∧ ∀ v ∈ ([4, 3] : List ℚ), r.y_range.1 ≤ v) ∧
      (r.y_range.2 ∈ ([4, 3] : List ℚ) ∧ ∀ v ∈ ([4, 3] : List ℚ), v ≤ r.y_range.2) ∧
      r.y_range.1 ≤ r.y_range.2 ∧
      (r.z_range.1 ∈ ([5, 5] : List ℚ) ∧ ∀ v ∈ ([5, 5] : List ℚ), r.z_range.1 ≤ v) ∧
      (r.z_range.2 ∈ ([5, 5] : List ℚ) ∧ ∀ v ∈ ([5, 5] : List ℚ), v ≤ r.z_range.2) ∧
      r.z_range.1 ≤ r.z_range.2 :=
  get_xyz_ranges_min_max ⟨[1, 2], [4, 3], [5, 5], [0, 0]⟩
    (by simp) (by simp) (by simp)

/-- C3: for nonzero `c` and ordered ranges, `plot_plane` returns a
10×10 grid whose every point satisfies the plane equation
`a·x + b·y + c·z + d = 0`, with the `xx` values inside the x-range and
the `yy` values inside the y-range. -/
theorem plot_plane_grid_on_plane (a b c d lo1 hi1 lo2 hi2 : ℚ)
    (hc : c ≠ 0) (hx : lo1 ≤ hi1) (hy : lo2 ≤ hi2) :
    (plot_plane a b c d (lo1, hi1) (lo2, hi2)).1.length = 10 ∧
    (plot_plane a b c d (lo1, hi1) (lo2, hi2)).2.1.length = 10 ∧
    (plot_plane a b c d (lo1, hi1) (lo2, hi2)).2.2.length = 10 ∧
    ∀ i j, i < 10 → j < 10 →
      ((plot_plane a b c d (lo1, hi1) (lo2, hi2)).1.getD i []).length = 10 ∧
      ((plot_plane a b c d (lo1, hi1) (lo2, hi2)).2.1.getD i []).length = 10 ∧
      ((plot_plane a b c d (lo1, hi1) (lo2, hi2)).2.2.getD i []).length = 10 ∧
      a * (((plot_plane a b c d (lo1, hi1) (lo2, hi2)).1.getD i []).getD j 0) +
        b * (((plot_plane a b c d (lo1, hi1) (lo2, hi2)).2.1.getD i []).getD j 0) +
        c * (((plot_plane a b c d (lo1, hi1) (lo2, hi2)).2.2.getD i []).getD j 0) +
        d = 0 ∧
      lo1 ≤ ((plot_plane a b c d (lo1, hi1) (lo2, hi2)).1.getD i []).getD j 0 ∧
      ((plot_plane a b c d (lo1, hi1) (lo2, hi2)).1.getD i []).getD j 0 ≤ hi1 ∧
      lo2 ≤ ((plot_plane a b c d (lo1, hi1) (lo2, hi2)).2.1.getD i []).getD j 0 ∧
      ((plot_plane a b c d (lo1, hi1) (lo2, hi2)).2.1.getD i []).getD j 0 ≤ hi2 := by
  obtain ⟨hs1, hs2, hs3, _, _, _⟩ :=
    plot_plane_shape a b c d (lo1, hi1) (lo2, hi2) 0 (by norm_num)
  refine ⟨hs1, hs2, hs3, ?_⟩
  intro i j hi hj
  obtain ⟨_, _, _, hr1, hr2, hr3⟩ := plot_plane_shape a b c d (lo1, hi1) (lo2, hi2) i hi
  obtain ⟨hxx, hyy, hzz⟩ := plot_plane_getD a b c d lo1 hi1 lo2 hi2 i j hi hj
  refine ⟨hr1, hr2, hr3, ?_, ?_, ?_, ?_, ?_⟩
  · rw [hxx, hyy, hzz]
    have hq : c * ((-d - a * (lo1 + (hi1 - lo1) * j / 9) -
        b * (lo2 + (hi2 - lo2) * i / 9)) / c) =
        -d - a * (lo1 + (hi1 - lo1) * j / 9) - b * (lo2 + (hi2 - lo2) * i / 9) := by
      rw [mul_comm, div_mul_cancel₀ _ hc]
    rw [hq]
    ring
  · rw [hxx]
    exact (linspace_bounds lo1 hi1 hx j (by omega)).1
  · rw [hxx]
    exact (linspace_bounds lo1 hi1 hx j (by omega)).2
  · rw [hyy]
    exact (linspace_bounds lo2 hi2 hy i (by omega)).1
  · rw [hyy]
    exact (linspace_bounds lo2 hi2 hy i (by omega)).2

/-- Witness for C3 at the unit plane `z = 0` over the unit square:
checks the grid shape and the plane equation at the corner point. -/
theorem plot_plane_grid_on_plane_witness :
    (plot_plane 0 0 1 0 (0, 1) (0, 1)).1.length = 10 ∧
    (plot_plane 0 0 1 0 (0, 1) (0, 1)).2.1.length = 10 ∧
    (plot_plane 0 0 1 0 (0, 1) (0, 1)).2.2.length = 10 ∧
    ∀ i j, i < 10 → j < 10 →
      ((plot_plane 0 0 1 0 (0, 1) (0, 1)).1.getD i []).length = 10 ∧
      ((plot_plane 0 0 1 0 (0, 1) (0, 1)).2.1.getD i []).length = 10 ∧
      ((plot_plane 0 0 1 0 (0, 1) (0, 1)).2.2.getD i []).length = 10 ∧
      (0 : ℚ) * (((plot_plane 0 0 1 0 (0, 1) (0, 1)).1.getD i []).getD j 0) +
        0 * (((plot_plane 0 0 1 0 (0, 1) (0, 1)).2.1.getD i []).getD j 0) +
        1 * (((plot_plane 0 0 1 0 (0, 1) (0, 1)).2.2.getD i []).getD j 0) +
        0 = 0 ∧
      (0 : ℚ) ≤ ((plot_plane 0 0 1 0 (0, 1) (0, 1)).1.getD i []).getD j 0 ∧
      ((plot_plane 0 0 1 0 (0, 1) (0, 1)).1.getD i []).getD j 0 ≤ 1 ∧
      (0 : ℚ) ≤ ((plot_plane 0 0 1 0 (0, 1) (0, 1)).2.1.getD i []).getD j 0 ∧
      ((plot_plane 0 0 1 0 (0, 1) (0, 1)).2.1.getD i []).getD j 0 ≤ 1 :=
  plot_plane_grid_on_plane 0 0 1 0 0 1 0 1 (by norm_num) (by norm_num) (by norm_num)

/-- C10: `plot_plane` divides by `c` with no guard: with `c ≠ 0` every
grid point satisfies the plane equation, while at a concrete input with
`c = 0` the returned z-grid violates it (the rational model's `q / 0 = 0`
standing for the meaningless float result), and `visualize` feeds the
SVM coefficients straight into `plot_plane` for every fit result,
including one with `c = 0` — no caller checks the precondition. -/
theorem plot_plane_division_unguarded :
    (∀ a b c d lo1 hi1 lo2 hi2 : ℚ, ∀ i j : ℕ, c ≠ 0 → i < 10 → j < 10 →
      a * (((plot_plane a b c d (lo1, hi1) (lo2, hi2)).1.getD i []).getD j 0) +
        b * (((plot_plane a b c d (lo1, hi1) (lo2, hi2)).2.1.getD i []).getD j 0) +
        c * (((plot_plane a b c d (lo1, hi1) (lo2, hi2)).2.2.getD i []).getD j 0) +
        d = 0) ∧
    ((1 : ℚ) * (((plot_plane 1 0 0 1 (0, 1) (0, 1)).1.getD 0 []).getD 0 0) +
        0 * (((plot_plane 1 0 0 1 (0, 1) (0, 1)).2.1.getD 0 []).getD 0 0) +
        0 * (((plot_plane 1 0 0 1 (0, 1) (0, 1)).2.2.getD 0 []).getD 0 0) +
        1 ≠ 0) ∧
    (∀ (cmap : ℕ → ℕ → Color) (svmFit : List Point → List ℕ → SVMModel)
        (fp : String) (pc : List Point) (pcs : List ℕ), pc ≠ [] →
      ∃ (fig : SvmFigure) (xlo xhi ylo yhi : ℚ),
        npMin (pc.map (fun p => p.1)) = some xlo ∧
        npMax (pc.map (fun p => p.1)) = some xhi ∧
        npMin (pc.map (fun p => p.2.1)) = some ylo ∧
        npMax (pc.map (fun p => p.2.1)) = some yhi ∧
        (visualize_svm cmap svmFit ⟨fp, some pc, some pcs⟩).1 = Except.ok fig ∧
        fig.plane1 = plot_plane (train_svm svmFit pc pcs 1 2).1
          (train_svm svmFit pc pcs 1 2).2.1 (train_svm svmFit pc pcs 1 2).2.2.1
          (train_svm svmFit pc pcs 1 2).2.2.2 (xlo, xhi) (ylo, yhi) ∧
        fig.plane2 = plot_plane (train_svm svmFit pc pcs 1 3).1
          (train_svm svmFit pc pcs 1 3).2.1 (train_svm svmFit pc pcs 1 3).2.2.1
          (train_svm svmFit pc pcs 1 3).2.2.2 (xlo, xhi) (ylo, yhi)) := by
  refine ⟨?_, ?_, ?_⟩
  · intro a b c d lo1 hi1 lo2 hi2 i j hc hi hj
    obtain ⟨hxx, hyy, hzz⟩ := plot_plane_getD a b c d lo1 hi1 lo2 hi2 i j hi hj
    rw [hxx, hyy, hzz]
    have hq : c * ((-d - a * (lo1 + (hi1 - lo1) * j / 9) -
        b * (lo2 + (hi2 - lo2) * i / 9)) / c) =
        -d - a * (lo1 + (hi1 - lo1) * j / 9) - b * (lo2 + (hi2 - lo2) * i / 9) := by
      rw [mul_comm, div_mul_cancel₀ _ hc]
    rw [hq]
    ring
  · obtain ⟨hxx, hyy, hzz⟩ :=
      plot_plane_getD 1 0 0 1 0 1 0 1 0 0 (by norm_num) (by norm_num)
    rw [hxx, hyy, hzz]
    norm_num
  · intro cmap svmFit fp pc pcs hpc
    have hm1 : pc.map (fun p : Point => p.1) ≠ [] := by
      intro h
      exact hpc (by simpa using h)
    have hm2 : pc.map (fun p : Point => p.2.1) ≠ [] := by
      intro h
      exact hpc (by simpa using h)
    obtain ⟨xlo, hxlo⟩ := npMin_isSome_of_ne_nil _ hm1
    obtain ⟨xhi, hxhi⟩ := npMax_isSome_of_ne_nil _ hm1
    obtain ⟨ylo, hylo⟩ := npMin_isSome_of_ne_nil _ hm2
    obtain ⟨yhi, hyhi⟩ := npMax_isSome_of_ne_nil _ hm2
    refine ⟨SvmFigure.mk
      ((npUnique pcs).map (fun cls => Trace.mk cls (classPoints pc pcs cls)
        (((get_color_map cmap pcs).lookup cls).getD (0, 0, 0))))
      (plot_plane (train_svm svmFit pc pcs 1 2).1
        (train_svm svmFit pc pcs 1 2).2.1 (train_svm svmFit pc pcs 1 2).2.2.1
        (train_svm svmFit pc pcs 1 2).2.2.2 (xlo, xhi) (ylo, yhi))
      (plot_plane (train_svm svmFit pc pcs 1 3).1
        (train_svm svmFit pc pcs 1 3).2.1 (train_svm svmFit pc pcs 1 3).2.2.1
        (train_svm svmFit pc pcs 1 3).2.2.2 (xlo, xhi) (ylo, yhi)),
      xlo, xhi, ylo, yhi, hxlo, hxhi, hylo, hyhi, ?_, rfl, rfl⟩
    simp only [visualize_svm, tracesFor_eq, hxlo, hxhi, hylo, hyhi]

/-- Witness for C10: the plane equation holds at a grid corner for
`c = 1`, and `visualize` hands a fit result with `c = 0` to
`plot_plane` unchecked on a concrete one-point cloud. -/
theorem plot_plane_division_unguarded_witness :
    ((0 : ℚ) * (((plot_plane 0 0 1 0 (0, 1) (0, 1)).1.getD 0 []).getD 0 0) +
      0 * (((plot_plane 0 0 1 0 (0, 1) (0, 1)).2.1.getD 0 []).getD 0 0) +
      1 * (((plot_plane 0 0 1 0 (0, 1) (0, 1)).2.2.getD 0 []).getD 0 0) +
      0 = 0) ∧
    (∃ (fig : SvmFigure) (xlo xhi ylo yhi : ℚ),
      npMin (([((0 : ℚ), (0 : ℚ), (0 : ℚ))] : List Point).map (fun p => p.1)) =
        some xlo ∧
      npMax (([((0 : ℚ), (0 : ℚ), (0 : ℚ))] : List Point).map (fun p => p.1)) =
        some xhi ∧
      npMin (([((0 : ℚ), (0 : ℚ), (0 : ℚ))] : List Point).map (fun p => p.2.1)) =
        some ylo ∧
      npMax (([((0 : ℚ), (0 : ℚ), (0 : ℚ))] : List Point).map (fun p => p.2.1)) =
        some yhi ∧
      (visualize_svm (fun _ _ => (0, 0, 0))
          (fun _ _ => SVMModel.mk (1, 0, 0) 1)
          ⟨"demo.las", some [((0 : ℚ), (0 : ℚ), (0 : ℚ))], some [1]⟩).1 =
        Except.ok fig ∧
      fig.plane1 = plot_plane
        (train_svm (fun _ _ => SVMModel.mk (1, 0, 0) 1)
          [((0 : ℚ), (0 : ℚ), (0 : ℚ))] [1] 1 2).1
        (train_svm (fun _ _ => SVMModel.mk (1, 0, 0) 1)
          [((0 : ℚ), (0 : ℚ), (0 : ℚ))] [1] 1 2).2.1
        (train_svm (fun _ _ => SVMModel.mk (1, 0, 0) 1)
          [((0 : ℚ), (0 : ℚ), (0 : ℚ))] [1] 1 2).2.2.1
        (train_svm (fun _ _ => SVMModel.mk (1, 0, 0) 1)
          [((0 : ℚ), (0 : ℚ), (0 : ℚ))] [1] 1 2).2.2.2 (xlo, xhi) (ylo, yhi) ∧
      fig.plane2 = plot_plane
        (train_svm (fun _ _ => SVMModel.mk (1, 0, 0) 1)
          [((0 : ℚ), (0 : ℚ), (0 : ℚ))] [1] 1 3).1
        (train_svm (fun _ _ => SVMModel.mk (1, 0, 0) 1)
          [((0 : ℚ), (0 : ℚ), (0 : ℚ))] [1] 1 3).2.1
        (train_svm (fun _ _ => SVMModel.mk (1, 0, 0) 1)
          [((0 : ℚ), (0 : ℚ), (0 : ℚ))] [1] 1 3).2.2.1
        (train_svm (fun _ _ => SVMModel.mk (1, 0, 0) 1)
          [((0 : ℚ), (0 : ℚ), (0 : ℚ))] [1] 1 3).2.2.2 (xlo, xhi) (ylo, yhi)) :=
  ⟨plot_plane_division_unguarded.1 0 0 1 0 0 1 0 1 0 0 (by norm_num)
      (by norm_num) (by norm_num),
    plot_plane_division_unguarded.2.2 (fun _ _ => (0, 0, 0))
      (fun _ _ => SVMModel.mk (1, 0, 0) 1) "demo.las"
      [((0 : ℚ), (0 : ℚ), (0 : ℚ))] [1] (by simp)⟩

theorem svc_fit_error_msg (svmFit : List Point → List ℕ → SVMModel)
    (points : List Point) (labels : List ℕ) (e : PyErr)
    (h : svc_fit svmFit points labels = Except.error e) :
    e = PyErr.valueError
      "Found array with 0 sample(s) (shape=(0, 3)) while a minimum of 1 is required by SVC." ∨
    e = PyErr.valueError
      "The number of classes has to be greater than one; got 1 class" := by
  unfold svc_fit at h
  split at h
  · exact Or.inl (Except.error.inj h).symm
  · split at h
    · exact Or.inr (Except.error.inj h).symm
    · exact absurd h (by simp)

theorem train_svm_checked_error_msg (svmFit : List Point → List ℕ → SVMModel)
    (pc : List Point) (pcs : List ℕ) (class_a class_b : ℕ) (e : PyErr)
    (h : train_svm_checked svmFit pc pcs class_a class_b = Except.error e) :
    e = PyErr.valueError
      "Found array with 0 sample(s) (shape=(0, 3)) while a minimum of 1 is required by SVC." ∨
    e = PyErr.valueError
      "The number of classes has to be greater than one; got 1 class" := by
  simp only [train_svm_checked] at h
  split at h
  next heq => exact svc_fit_error_msg _ _ _ _ (heq.trans (congrArg Except.error (Except.error.inj h)))
  next => exact absurd h (by simp)

/-- C8 counterexample: with a loaded but empty point cloud the
`two_svm_plane.py` `visualize` (with `SVC.fit`'s error path modeled)
still raises `ValueError` — from `np.min` over a zero-size array, not
from the None-check — refuting "raises ValueError if and only if the
point cloud has not been loaded". -/
theorem visualize_valueerror_iff_unloaded_counterexample :
    (visualize_svm_checked (fun _ _ => (0, 0, 0)) (fun _ _ => SVMModel.mk (0, 0, 0) 0)
        ⟨"demo.las", some [], some []⟩).1 =
      Except.error (PyErr.valueError
        "zero-size array to reduction operation minimum which has no identity") ∧
    (VisState.mk "demo.las" (some []) (some [])).point_cloud ≠ none ∧
    (VisState.mk "demo.las" (some []) (some [])).point_classes ≠ none := by
  refine ⟨rfl, by simp, by simp⟩

/-- C8 amended: every `visualize` variant leaves the state unchanged
and raises the None-check `ValueError` (recognizable by its message)
exactly when the data is not loaded, so the None-check branch is
unreachable on loaded data; in the basic and go_label variants this is
the only `ValueError`; in the `two_svm_plane.py` variant — taken with
`SVC.fit`'s error path modeled — loadedness does not preclude
`ValueError`: a loaded cloud whose classes give an empty or
single-class training selection makes the fit raise a `ValueError`
distinct from the None-check one. -/
theorem visualize_valueerror_conditions (cmap : ℕ → ℕ → Color)
    (svmFit : List Point → List ℕ → SVMModel) (s : VisState) (sU : VisStateU)
    (fp : String) :
    (visualize_u sU).2 = sU ∧
    ((∃ m, (visualize_u sU).1 = Except.error (PyErr.valueError m)) ↔
      sU.point_cloud = none) ∧
    (visualize_go cmap s).2 = s ∧
    ((∃ m, (visualize_go cmap s).1 = Except.error (PyErr.valueError m)) ↔
      (s.point_cloud = none ∨ s.point_classes = none)) ∧
    (visualize_svm_checked cmap svmFit s).2 = s ∧
    ((visualize_svm_checked cmap svmFit s).1 = Except.error (PyErr.valueError
        "No point cloud loaded. Please run `load_las_file()` first.") ↔
      (s.point_cloud = none ∨ s.point_classes = none)) ∧
    (∃ m, (visualize_svm_checked cmap svmFit
        ⟨fp, some [((0 : ℚ), (0 : ℚ), (0 : ℚ))], some [5]⟩).1 =
          Except.error (PyErr.valueError m) ∧
      m ≠ "No point cloud loaded. Please run `load_las_file()` first.") ∧
    (∃ m, (visualize_svm_checked cmap svmFit
        ⟨fp, some [((0 : ℚ), (0 : ℚ), (0 : ℚ)), (1, 1, 1)], some [1, 1]⟩).1 =
          Except.error (PyErr.valueError m) ∧
      m ≠ "No point cloud loaded. Please run `load_las_file()` first.") := by
  refine ⟨?_, ?_, ?_, ?_, ?_, ?_, ?_, ?_⟩
  · rcases sU with ⟨fpU, pcU⟩
    cases pcU <;> rfl
  · rcases sU with ⟨fpU, pcU⟩
    cases pcU <;> simp [visualize_u]
  · rcases s with ⟨sfp, pc, pcs⟩
    cases pc <;> cases pcs <;> rfl
  · rcases s with ⟨sfp, pc, pcs⟩
    cases pc with
    | none => cases pcs <;> simp [visualize_go]
    | some pc =>
      cases pcs with
      | none => simp [visualize_go]
      | some pcs => simp [visualize_go, tracesFor_eq]
  · rcases s with ⟨sfp, pc, pcs⟩
    cases pc <;> cases pcs <;> rfl
  · rcases s with ⟨sfp, pc, pcs⟩
    cases pc with
    | none => cases pcs <;> simp [visualize_svm_checked]
    | some pc =>
      cases pcs with
      | none => simp [visualize_svm_checked]
      | some pcs =>
        simp only [visualize_svm_checked, tracesFor_eq]
        cases pc with
        | nil => simp [npMin]
        | cons p pc =>
          simp only [npMin, npMax, List.map_cons]
          cases h12 : train_svm_checked svmFit (p :: pc) pcs 1 2 with
          | error e =>
            rcases train_svm_checked_error_msg svmFit (p :: pc) pcs 1 2 e h12 with
              rfl | rfl <;> simp
          | ok p1 =>
            cases h13 : train_svm_checked svmFit (p :: pc) pcs 1 3 with
            | error e =>
              rcases train_svm_checked_error_msg svmFit (p :: pc) pcs 1 3 e h13 with
                rfl | rfl <;> simp
            | ok p2 => simp
  · refine ⟨"Found array with 0 sample(s) (shape=(0, 3)) while a minimum of 1 is required by SVC.",
      ?_, by decide⟩
    rfl
  · refine ⟨"The number of classes has to be greater than one; got 1 class",
      ?_, by decide⟩
    rfl
